import Mathlib

/-!
Verification of the audio-control-extension state-synchronization engine.

The definitions below are a shallow embedding of the repository's source:
* `src/entrypoints/background.ts` — the State Aggregator (`updateTabstate`,
  `cleanupStaleTabs`, the content-message handlers, `sendTabsToPopupAndTauri`,
  the popup-port `GET_AUDIO_TABS` handler, and the WebSocket
  `onopen`/`onclose` reconnect machinery);
* `src/entrypoints/content.ts` — the Document Audio Observer
  (`checkAnyAudioPlaying`, the per-element `pause` listener, and the
  `UI_MUTE_SET` command handler);
* the popup UI's `setMute` sender.

Machine numbers: element/tab volume is a JS double in [0,1], modelled as `ℚ`;
timestamps (`Date.now()`) are modelled as explicit `Nat` clock parameters.
JS objects with optional fields (`Partial<TabAudioState>`, message payloads)
are modelled as structures of `Option` fields: `none` = property absent /
`undefined`.
-/

namespace AudioControlExt

/-- `TabAudioState` from background.ts: the canonical per-tab record. -/
structure TabAudioState where
  tabId : Nat
  url : String
  title : String
  isAudible : Bool
  hasContentAudio : Bool
  is_muted : Bool
  paused : Bool
  volume : ℚ
  lastUpdate : Nat
  deriving Repr, DecidableEq

/-- `Partial<TabAudioState>`: a patch; `none` means the property is absent
from the patch object. -/
structure TabPatch where
  tabId : Option Nat := none
  url : Option String := none
  title : Option String := none
  isAudible : Option Bool := none
  hasContentAudio : Option Bool := none
  is_muted : Option Bool := none
  paused : Option Bool := none
  volume : Option ℚ := none
  lastUpdate : Option Nat := none
  deriving Repr, DecidableEq

/-- The merge expression of `updateTabstate` in background.ts applied to an
existing record `old`:
`tabStates[tabId] = { ...tabStates[tabId], ...updates, lastUpdate: Date.now() }`.
Spread semantics: a property present in `updates` wins over `old`; the
trailing `lastUpdate: Date.now()` wins over both, so a `lastUpdate` inside
the patch is never used. `now` is the `Date.now()` reading. -/
def mergePatch (old : TabAudioState) (p : TabPatch) (now : Nat) : TabAudioState where
  tabId := p.tabId.getD old.tabId
  url := p.url.getD old.url
  title := p.title.getD old.title
  isAudible := p.isAudible.getD old.isAudible
  hasContentAudio := p.hasContentAudio.getD old.hasContentAudio
  is_muted := p.is_muted.getD old.is_muted
  paused := p.paused.getD old.paused
  volume := p.volume.getD old.volume
  lastUpdate := now

/-- The stored mapping `Record<number, TabAudioState>` as an association list
(key = tabId). -/
abbrev TabStore := List (Nat × TabAudioState)

/-- `tabStates[tabId]` read. -/
def lookupTab (store : TabStore) (tabId : Nat) : Option TabAudioState :=
  (store.find? (fun kv => kv.fst == tabId)).map Prod.snd

/-- `tabStates[tabId] = v` write: replaces the record under the key when it
exists, otherwise adds it. -/
def setTab (store : TabStore) (tabId : Nat) (v : TabAudioState) : TabStore :=
  if store.any (fun kv => kv.fst == tabId) then
    store.map (fun kv => if kv.fst == tabId then (tabId, v) else kv)
  else
    store ++ [(tabId, v)]

/-- Zero record used as merge base when the key is absent.  In the JS source
the spread of `undefined` yields an object holding only the patch's own
fields; every call site of `updateTabstate` that can run with an absent
record passes a patch containing every field, so this base is never
observable there. -/
def emptyTabState : TabAudioState :=
  { tabId := 0, url := "", title := "", isAudible := false,
    hasContentAudio := false, is_muted := false, paused := false,
    volume := 0, lastUpdate := 0 }

/-- `updateTabstate(tabId, updates)` from background.ts: read the mapping,
merge the patch over the existing record, stamp `lastUpdate`, write back. -/
def updateTabstate (store : TabStore) (tabId : Nat) (p : TabPatch) (now : Nat) :
    TabStore :=
  setTab store tabId (mergePatch ((lookupTab store tabId).getD emptyTabState) p now)

/-- Payload fields of a content-script message (`message.muted`,
`message.volume`); `none` = property absent, read with `??` in the source. -/
structure ContentMsg where
  muted : Option Bool := none
  volume : Option ℚ := none
  deriving Repr, DecidableEq

/-- `handleContentAudioStopped` from background.ts: guarded on the record
existing; otherwise patches hasContentAudio/paused to false and merges
muted/volume from the message with `??` fallback to the existing values. -/
def handleContentAudioStopped (tabId : Nat) (message : ContentMsg)
    (store : TabStore) (now : Nat) : TabStore :=
  match lookupTab store tabId with
  | none => store
  | some existingState =>
      updateTabstate store tabId
        { hasContentAudio := some false, paused := some false,
          is_muted := some (message.muted.getD existingState.is_muted),
          volume := some (message.volume.getD existingState.volume) } now

/-- `handleContentAudioPaused` from background.ts: guarded on the record
existing; sets hasContentAudio := true, paused := true, merges muted/volume. -/
def handleContentAudioPaused (tabId : Nat) (message : ContentMsg)
    (store : TabStore) (now : Nat) : TabStore :=
  match lookupTab store tabId with
  | none => store
  | some existingState =>
      updateTabstate store tabId
        { hasContentAudio := some true, paused := some true,
          is_muted := some (message.muted.getD existingState.is_muted),
          volume := some (message.volume.getD existingState.volume) } now

/-- `handleContentAudioChanged` (VOLUME_CHANGED) from background.ts: guarded
on the record existing; merges muted/volume only. -/
def handleContentAudioChanged (tabId : Nat) (message : ContentMsg)
    (store : TabStore) (now : Nat) : TabStore :=
  match lookupTab store tabId with
  | none => store
  | some existingState =>
      updateTabstate store tabId
        { is_muted := some (message.muted.getD existingState.is_muted),
          volume := some (message.volume.getD existingState.volume) } now

/-- The snapshot filter of `sendTabsToPopupAndTauri`:
`Object.values(tabstates).filter(tab => tab.isAudible || tab.hasContentAudio || tab.paused)`. -/
def audioTabs (store : TabStore) : List TabAudioState :=
  (store.map Prod.snd).filter
    (fun tab => tab.isAudible || tab.hasContentAudio || tab.paused)

/-- `cleanupStaleTabs` from background.ts: iterates the stored keys and
deletes every record whose tabId is not in the set of live tab ids
(`validTabIds`); the surviving mapping keeps exactly the entries whose key
is a live tab id. -/
def cleanupStaleTabs (validTabIds : List Nat) (store : TabStore) : TabStore :=
  store.filter (fun kv => validTabIds.contains kv.fst)

/-- CLAIM C1. Frame condition of the Aggregator's merge-update: every field
absent from the patch keeps its previous value in the merged record; fields
present in the patch take the patch's value, and `lastUpdate` is always set
to the clock reading. -/
theorem updateTabstate_frame (old : TabAudioState) (p : TabPatch) (now : Nat) :
    (p.tabId = none → (mergePatch old p now).tabId = old.tabId) ∧
    (p.url = none → (mergePatch old p now).url = old.url) ∧
    (p.title = none → (mergePatch old p now).title = old.title) ∧
    (p.isAudible = none → (mergePatch old p now).isAudible = old.isAudible) ∧
    (p.hasContentAudio = none →
      (mergePatch old p now).hasContentAudio = old.hasContentAudio) ∧
    (p.is_muted = none → (mergePatch old p now).is_muted = old.is_muted) ∧
    (p.paused = none → (mergePatch old p now).paused = old.paused) ∧
    (p.volume = none → (mergePatch old p now).volume = old.volume) ∧
    (mergePatch old p now).lastUpdate = now := by
  refine ⟨?_, ?_, ?_, ?_, ?_, ?_, ?_, ?_, rfl⟩ <;>
    intro h <;> simp [mergePatch, h]

/-- Witness for C1: the frame condition evaluated on a concrete record and
an empty patch. -/
theorem updateTabstate_frame_witness :
    ({} : TabPatch).url = none ∧
    (mergePatch emptyTabState {} 5).url = emptyTabState.url :=
  ⟨rfl, (updateTabstate_frame emptyTabState {} 5).2.1 rfl⟩

/-- A concrete audible record used to instantiate theorems. -/
def sampleTab : TabAudioState :=
  { tabId := 7, url := "u", title := "t", isAudible := true,
    hasContentAudio := false, is_muted := false, paused := false,
    volume := 1, lastUpdate := 5 }

/-- A concrete record that fails the active-snapshot predicate:
isAudible, hasContentAudio and paused all false. -/
def silentTab : TabAudioState :=
  { tabId := 8, url := "u8", title := "t8", isAudible := false,
    hasContentAudio := false, is_muted := true, paused := false,
    volume := 0, lastUpdate := 5 }

/-- A concrete stored mapping holding one audible and one silent record. -/
def sampleStore : TabStore := [(7, sampleTab), (8, silentTab)]

/-- CLAIM C2. The broadcast snapshot is the stored mapping filtered to
records satisfying isAudible || hasContentAudio || paused; a record with all
three false never appears, and records that pass the filter appear
unmodified (the member of the snapshot is the stored record itself). -/
theorem audioTabs_filter_spec (store : TabStore) (t : TabAudioState) :
    (t ∈ audioTabs store ↔
      t ∈ store.map Prod.snd ∧ (t.isAudible || t.hasContentAudio || t.paused) = true) ∧
    (t.isAudible = false → t.hasContentAudio = false → t.paused = false →
      t ∉ audioTabs store) := by
  constructor
  · simp [audioTabs, List.mem_filter]
  · intro h1 h2 h3 hmem
    have := (List.mem_filter.mp hmem).2
    simp [h1, h2, h3] at this

/-- Witness for C2: the silent record is in the sample store but not in its
broadcast snapshot. -/
theorem audioTabs_filter_spec_witness :
    silentTab ∈ sampleStore.map Prod.snd ∧ silentTab ∉ audioTabs sampleStore :=
  ⟨by decide, (audioTabs_filter_spec sampleStore silentTab).2 rfl rfl rfl⟩

/-- CLAIM C3, counterexample. The code sets `lastUpdate := Date.now()`
without comparing against the previous value, so a patch applied while the
millisecond clock has not advanced past the record's `lastUpdate` does not
strictly increase it: merging any patch at clock reading 5 into a record
whose lastUpdate is already 5 leaves lastUpdate = 5. -/
theorem lastUpdate_not_strictly_increasing :
    ¬ sampleTab.lastUpdate < (mergePatch sampleTab {} 5).lastUpdate := by
  decide

/-- CLAIM C3, amended: every applied patch sets `lastUpdate` to the current
clock reading; consequently lastUpdate strictly increases across a patch
exactly when that reading strictly exceeds the record's previous lastUpdate
(the merge itself enforces no strictness). -/
theorem lastUpdate_set_to_clock (old : TabAudioState) (p : TabPatch) (now : Nat) :
    (mergePatch old p now).lastUpdate = now ∧
    (old.lastUpdate < now → old.lastUpdate < (mergePatch old p now).lastUpdate) := by
  exact ⟨rfl, fun h => h⟩

/-- Witness for C3's amended theorem at clock reading 6 on a record last
updated at 5. -/
theorem lastUpdate_set_to_clock_witness :
    sampleTab.lastUpdate < 6 ∧
    sampleTab.lastUpdate < (mergePatch sampleTab {} 6).lastUpdate :=
  ⟨by decide, (lastUpdate_set_to_clock sampleTab {} 6).2 (by decide)⟩

/-- CLAIM C4. Startup reconciliation keeps exactly the stored entries whose
tabId is in the live tab list: an entry (with its record unchanged) survives
cleanupStaleTabs iff it was stored and its key is a live tab id, so exactly
the orphaned entries are removed. -/
theorem cleanupStaleTabs_mem (validTabIds : List Nat) (store : TabStore)
    (kv : Nat × TabAudioState) :
    kv ∈ cleanupStaleTabs validTabIds store ↔ kv ∈ store ∧ kv.fst ∈ validTabIds := by
  simp [cleanupStaleTabs, List.mem_filter]

/-- Connection status values passed to `updateStatus` in background.ts. -/
inductive ConnStatus where
  | DISCONNECTED
  | CONNECTED
  | RECONNECTING
  deriving Repr, DecidableEq

/-- Observable outputs of the background script: a SERVER_STATUS broadcast,
an AUDIO_TABS_UPDATE post to a popup port, an AUDIO_TABS frame on the
socket, or the creation of a new WebSocket (whose open/close events arrive
later, asynchronously). -/
inductive BgOutput where
  | statusMsg (s : ConnStatus)
  | popupTabs (tabs : List TabAudioState)
  | socketSend (payload : List TabAudioState)
  | wsConnect
  deriving Repr, DecidableEq

/-- `sendTabsToPopupAndTauri` from background.ts: computes the filtered
snapshot once, posts it to every connected popup port as AUDIO_TABS_UPDATE,
and, when the socket connection is open, sends the same array as the
AUDIO_TABS payload. `nPorts` is the number of entries of `popupPorts`. -/
def sendTabsToPopupAndTauri (store : TabStore) (nPorts : Nat)
    (socketOpen : Bool) : List BgOutput :=
  List.replicate nPorts (BgOutput.popupTabs (audioTabs store)) ++
    (if socketOpen then [BgOutput.socketSend (audioTabs store)] else [])

/-- The synchronous effects of `connect()` in background.ts: when a previous
socket exists its callbacks are nulled, it is closed and DISCONNECTED is
broadcast; then a new WebSocket is created (status/open/close arrive later
via its events). No snapshot is posted to any popup port here. -/
def connectOutputs (hadSocket : Bool) : List BgOutput :=
  (if hadSocket then [BgOutput.statusMsg ConnStatus.DISCONNECTED] else []) ++
    [BgOutput.wsConnect]

/-- The popup-port message handler for GET_AUDIO_TABS in background.ts:
`if (message.type === 'GET_AUDIO_TABS') connect();` — its synchronous
outputs are exactly those of `connect()`. -/
def handleGetAudioTabs (hadSocket : Bool) : List BgOutput :=
  connectOutputs hadSocket

/-- `socket.onopen` from background.ts: status := CONNECTED, the reconnect
counter resets to 0, the heartbeat starts, and `sendTabsToPopupAndTauri`
runs with the socket now open.  Returns (status, reconnectAttempts,
outputs). -/
def socketOnOpen (store : TabStore) (nPorts : Nat) :
    ConnStatus × Nat × List BgOutput :=
  (ConnStatus.CONNECTED, 0,
    BgOutput.statusMsg ConnStatus.CONNECTED ::
      sendTabsToPopupAndTauri store nPorts true)

/-- `socket.onclose` from background.ts: close codes 1000/1001 reset the
attempt counter and go to DISCONNECTED with no reconnect scheduled; any
other code goes to RECONNECTING, increments the counter, and schedules a
reconnect after `min(1000 * 2 ** reconnectAttempts, 30000)` ms computed with
the incremented counter.  Returns (status, reconnectAttempts, scheduled
delay). -/
def onCloseEvent (code : Nat) (reconnectAttempts : Nat) :
    ConnStatus × Nat × Option Nat :=
  if code == 1000 || code == 1001 then
    (ConnStatus.DISCONNECTED, 0, none)
  else
    (ConnStatus.RECONNECTING, reconnectAttempts + 1,
      some (min (1000 * 2 ^ (reconnectAttempts + 1)) 30000))

/-- The delay scheduled when the reconnect counter has reached `n`. -/
def delaySeq (n : Nat) : Nat := min (1000 * 2 ^ n) 30000

/-- CLAIM C5. Reconnect backoff: every non-clean close increments the
attempt counter and schedules `delaySeq` of the new counter; the scheduled
delays strictly increase while below the 30000 ms ceiling, never exceed the
ceiling, and plateau at it; a clean close (1000 or 1001) resets the counter
to 0, so the next run of non-clean closes restarts from the base delay. -/
theorem reconnect_backoff (code a n : Nat) :
    (code ≠ 1000 → code ≠ 1001 →
      onCloseEvent code a =
        (ConnStatus.RECONNECTING, a + 1, some (delaySeq (a + 1)))) ∧
    (delaySeq n < 30000 → delaySeq n < delaySeq (n + 1)) ∧
    delaySeq n ≤ 30000 ∧
    (delaySeq n = 30000 → delaySeq (n + 1) = 30000) ∧
    onCloseEvent 1000 a = (ConnStatus.DISCONNECTED, 0, none) ∧
    onCloseEvent 1001 a = (ConnStatus.DISCONNECTED, 0, none) := by
  refine ⟨?_, ?_, ?_, ?_, by simp [onCloseEvent], by simp [onCloseEvent]⟩
  · intro h1 h2
    simp [onCloseEvent, delaySeq, h1, h2]
  · intro h
    have h2 : (2 : ℕ) ^ n < 2 ^ (n + 1) :=
      Nat.pow_lt_pow_right (by norm_num) (Nat.lt_succ_self n)
    simp only [delaySeq] at *
    omega
  · simp only [delaySeq]
    omega
  · intro h
    have h2 : (2 : ℕ) ^ n ≤ 2 ^ (n + 1) :=
      Nat.pow_le_pow_right (by norm_num) (Nat.le_succ n)
    simp only [delaySeq] at *
    omega

/-- Witness for C5: a non-clean close (code 1006) at counter 0 schedules the
base delay, the delay at counter 2 is below the ceiling and strictly smaller
than at counter 3, the ceiling holds at counter 10, and a clean close
resets. -/
theorem reconnect_backoff_witness :
    onCloseEvent 1006 0 =
      (ConnStatus.RECONNECTING, 1, some (delaySeq 1)) ∧
    delaySeq 2 < delaySeq 3 ∧
    delaySeq 10 ≤ 30000 ∧
    onCloseEvent 1000 4 = (ConnStatus.DISCONNECTED, 0, none) := by
  have h2 := reconnect_backoff 1006 0 2
  have h10 := reconnect_backoff 1006 4 10
  exact ⟨h2.1 (by decide) (by decide), h2.2.1 (by decide), h10.2.2.1,
    h10.2.2.2.2.1⟩

/-- CLAIM C8, counterexample. A GET_AUDIO_TABS request does not trigger an
immediate snapshot send: with a previous socket present, the handler's
synchronous outputs are only a DISCONNECTED status broadcast and the
creation of a new WebSocket — in particular the current snapshot of the
sample store (which holds an audible tab) is not posted to the session. -/
theorem getAudioTabs_no_immediate_snapshot :
    handleGetAudioTabs true =
      [BgOutput.statusMsg ConnStatus.DISCONNECTED, BgOutput.wsConnect] ∧
    BgOutput.popupTabs (audioTabs sampleStore) ∉ handleGetAudioTabs true ∧
    BgOutput.popupTabs (audioTabs sampleStore) ∉ handleGetAudioTabs false := by
  refine ⟨rfl, ?_, ?_⟩ <;> decide

/-- CLAIM C8, amended: GET_AUDIO_TABS calls connect(), whose synchronous
outputs never include a snapshot post to any popup port; the session
receives the current snapshot only when the new socket's open event later
fires (socket.onopen broadcasts the filtered snapshot to every connected
port). -/
theorem snapshot_on_socket_open (store : TabStore) (nPorts : Nat)
    (hadSocket : Bool) :
    (∀ ts, BgOutput.popupTabs ts ∉ handleGetAudioTabs hadSocket) ∧
    (0 < nPorts →
      BgOutput.popupTabs (audioTabs store) ∈ (socketOnOpen store nPorts).2.2) := by
  constructor
  · intro ts hmem
    cases hadSocket <;>
      simp [handleGetAudioTabs, connectOutputs] at hmem
  · intro hn
    have hne : nPorts ≠ 0 := by omega
    simp [socketOnOpen, sendTabsToPopupAndTauri, List.mem_replicate, hne]

/-- Witness for C8's amended theorem: with one connected port, the open
event delivers the sample store's snapshot. -/
theorem snapshot_on_socket_open_witness :
    (0 : Nat) < 1 ∧
    BgOutput.popupTabs (audioTabs sampleStore) ∈
      (socketOnOpen sampleStore 1).2.2 :=
  ⟨by decide, (snapshot_on_socket_open sampleStore 1 true).2 (by decide)⟩

/-- CLAIM C9. An AUDIO_STOPPED, AUDIO_PAUSED or VOLUME_CHANGED event
addressed to a tabId with no stored record leaves the stored mapping
completely unchanged: each handler is guarded by the record lookup and is a
total no-op when it fails. -/
theorem stale_tab_noop (tabId : Nat) (message : ContentMsg) (store : TabStore)
    (now : Nat) (h : lookupTab store tabId = none) :
    handleContentAudioStopped tabId message store now = store ∧
    handleContentAudioPaused tabId message store now = store ∧
    handleContentAudioChanged tabId message store now = store := by
  refine ⟨?_, ?_, ?_⟩ <;>
    simp [handleContentAudioStopped, handleContentAudioPaused,
      handleContentAudioChanged, h]

/-- Witness for C9: the handlers applied to tab 9 (absent from the sample
store) leave it unchanged. -/
theorem stale_tab_noop_witness :
    lookupTab sampleStore 9 = none ∧
    handleContentAudioStopped 9 {} sampleStore 6 = sampleStore :=
  ⟨by decide, (stale_tab_noop 9 {} sampleStore 6 (by decide)).1⟩

/-- CLAIM C10. Fan-out consistency: in one run of sendTabsToPopupAndTauri
every popup message carries exactly the filtered snapshot of the store,
the socket payload (sent iff the connection is open) is that same array, and
every connected port receives it — popup and socket payloads differ only in
their message-type wrapper, never in the records. -/
theorem fanout_same_payload (store : TabStore) (nPorts : Nat)
    (socketOpen : Bool) :
    (∀ ts, BgOutput.popupTabs ts ∈ sendTabsToPopupAndTauri store nPorts socketOpen →
      ts = audioTabs store) ∧
    (∀ ps, BgOutput.socketSend ps ∈ sendTabsToPopupAndTauri store nPorts socketOpen →
      ps = audioTabs store) ∧
    (socketOpen = true →
      BgOutput.socketSend (audioTabs store) ∈
        sendTabsToPopupAndTauri store nPorts socketOpen) ∧
    (0 < nPorts →
      BgOutput.popupTabs (audioTabs store) ∈
        sendTabsToPopupAndTauri store nPorts socketOpen) := by
  refine ⟨?_, ?_, ?_, ?_⟩
  · intro ts hmem
    rcases List.mem_append.mp hmem with hrep | hsock
    · simpa using List.eq_of_mem_replicate hrep
    · cases socketOpen <;> simp at hsock
  · intro ps hmem
    rcases List.mem_append.mp hmem with hrep | hsock
    · exact absurd (List.eq_of_mem_replicate hrep) (by simp)
    · cases socketOpen <;> simp at hsock
      exact hsock
  · intro hopen
    subst hopen
    simp [sendTabsToPopupAndTauri]
  · intro hn
    refine List.mem_append.mpr (Or.inl (List.mem_replicate.mpr ⟨?_, rfl⟩))
    omega

/-- Witness for C10: with the sample store, one port and the socket open,
both the popup message and the socket frame carry the snapshot. -/
theorem fanout_same_payload_witness :
    BgOutput.socketSend (audioTabs sampleStore) ∈
      sendTabsToPopupAndTauri sampleStore 1 true ∧
    BgOutput.popupTabs (audioTabs sampleStore) ∈
      sendTabsToPopupAndTauri sampleStore 1 true :=
  ⟨(fanout_same_payload sampleStore 1 true).2.2.1 rfl,
    (fanout_same_payload sampleStore 1 true).2.2.2 (by decide)⟩

/-- An HTMLMediaElement as read by content.ts: the paused/ended flags, the
native muted flag, readyState and volume. -/
structure MediaElem where
  paused : Bool
  ended : Bool
  muted : Bool
  readyState : Nat
  volume : ℚ
  deriving Repr, DecidableEq

/-- The per-element playing test of checkAnyAudioPlaying:
`!element.paused && !element.ended && element.readyState > 0`. -/
def isElemPlaying (e : MediaElem) : Bool :=
  !e.paused && !e.ended && decide (0 < e.readyState)

/-- The normalized events the Observer emits through updateAudioStatus.
The source attaches url, title and timestamp uniformly to every message;
they are constant per document and no claim depends on them, so they are
not carried here. -/
inductive CEvent where
  | AUDIO_DETECTED (muted : Bool) (volume : ℚ)
  | AUDIO_STOPPED
  | AUDIO_PAUSED (muted : Bool) (volume : ℚ)
  | VOLUME_CHANGED (muted : Bool) (volume : ℚ)
  deriving Repr, DecidableEq

/-- The forEach loop of checkAnyAudioPlaying: starting from
`anyPlaying = false, currentVolume = 0, currentMuted = false`, every playing
element overwrites the accumulator with `(true, its volume,
its muted || volume == 0)` — the last playing element wins. -/
def aggPlaying (audioElements : List MediaElem) : Bool × ℚ × Bool :=
  audioElements.foldl
    (fun acc e =>
      if isElemPlaying e then (true, e.volume, e.muted || decide (e.volume = 0))
      else acc)
    (false, 0, false)

/-- `checkAnyAudioPlaying` from content.ts, as a function of the tracked
element set and the `isTabPlayingAudio` flag: returns the emitted events and
the new flag.  When any element is playing it emits AUDIO_DETECTED with the
aggregated muted/volume in both sub-branches (already-playing included);
when none is and the flag was set it emits AUDIO_STOPPED and clears it. -/
def checkAnyAudioPlaying (audioElements : List MediaElem)
    (isTabPlayingAudio : Bool) : List CEvent × Bool :=
  let r := aggPlaying audioElements
  if r.1 then ([CEvent.AUDIO_DETECTED r.2.2 r.2.1], true)
  else if isTabPlayingAudio then ([CEvent.AUDIO_STOPPED], false)
  else ([], false)

/-- The pause listener installed by addMediaEventListener in content.ts:
runs checkAnyAudioPlaying first, then, when the flag ended up false, also
emits AUDIO_PAUSED with the paused element's own muted/volume. `element` is
the element whose pause event fired (its paused flag already true, so it is
also a member of `audioElements`). -/
def pauseListener (element : MediaElem) (audioElements : List MediaElem)
    (isTabPlayingAudio : Bool) : List CEvent × Bool :=
  let r := checkAnyAudioPlaying audioElements isTabPlayingAudio
  if r.2 then r
  else
    (r.1 ++ [CEvent.AUDIO_PAUSED (element.muted || decide (element.volume = 0))
      element.volume], r.2)

/-- The anyPlaying component of the aggregation loop is the disjunction of
the per-element playing tests (accumulator-generalized form). -/
theorem aggPlaying_fst_aux (audioElements : List MediaElem) (acc : Bool × ℚ × Bool) :
    (audioElements.foldl
      (fun acc e =>
        if isElemPlaying e then (true, e.volume, e.muted || decide (e.volume = 0))
        else acc)
      acc).1 = (acc.1 || audioElements.any isElemPlaying) := by
  induction audioElements generalizing acc with
  | nil => simp
  | cons e es ih =>
      simp only [List.foldl_cons, List.any_cons]
      rw [ih]
      by_cases h : isElemPlaying e = true <;> simp [h]

/-- The anyPlaying flag computed by the loop equals `any isElemPlaying`. -/
theorem aggPlaying_fst (audioElements : List MediaElem) :
    (aggPlaying audioElements).1 = audioElements.any isElemPlaying := by
  simpa using aggPlaying_fst_aux audioElements (false, 0, false)

/-- An element that has just fired its pause event while being the only
tracked element of the document. -/
def pausedOnlyElem : MediaElem :=
  { paused := true, ended := false, muted := false, readyState := 4, volume := 1 }

/-- CLAIM C6, counterexample. When pause fires on the only tracked element
while the tab was marked playing, the Observer does not emit AUDIO_STOPPED
rather than AUDIO_PAUSED: it emits AUDIO_STOPPED (from the aggregate check)
and then also AUDIO_PAUSED (the pause listener emits it precisely because
nothing is left playing). -/
theorem pause_emits_AUDIO_PAUSED :
    pauseListener pausedOnlyElem [pausedOnlyElem] true =
      ([CEvent.AUDIO_STOPPED, CEvent.AUDIO_PAUSED false 1], false) ∧
    CEvent.AUDIO_PAUSED false 1 ∈
      (pauseListener pausedOnlyElem [pausedOnlyElem] true).1 := by
  refine ⟨by decide, by decide⟩

/-- CLAIM C6, amended: when a pause event fires and the aggregate check
finds no tracked element playing while the tab was marked playing, the
Observer emits AUDIO_STOPPED followed by AUDIO_PAUSED (carrying the paused
element's muted/volume); AUDIO_PAUSED is emitted exactly when no element
remains playing — when some other element is still playing, the listener
emits only AUDIO_DETECTED and never AUDIO_PAUSED. -/
theorem pause_event_emissions (element : MediaElem)
    (audioElements : List MediaElem) (b : Bool) :
    (audioElements.all (fun e => !isElemPlaying e) = true →
      pauseListener element audioElements true =
        ([CEvent.AUDIO_STOPPED,
          CEvent.AUDIO_PAUSED (element.muted || decide (element.volume = 0))
            element.volume], false)) ∧
    (audioElements.any isElemPlaying = true →
      ∀ m v, CEvent.AUDIO_PAUSED m v ∉ (pauseListener element audioElements b).1) := by
  constructor
  · intro hall
    have hany : audioElements.any isElemPlaying = false := by
      simp only [List.all_eq_true] at hall
      simp only [List.any_eq_false]
      intro e he
      have := hall e he
      simp at this
      simp [this]
    have hfst : (aggPlaying audioElements).1 = false := by
      rw [aggPlaying_fst, hany]
    simp [pauseListener, checkAnyAudioPlaying, hfst]
  · intro hany m v hmem
    have hfst : (aggPlaying audioElements).1 = true := by
      rw [aggPlaying_fst, hany]
    simp [pauseListener, checkAnyAudioPlaying, hfst] at hmem

/-- Witness for C6's amended theorem: a two-element document where the other
element is still playing — the pause listener emits no AUDIO_PAUSED. -/
theorem pause_event_emissions_witness :
    [pausedOnlyElem,
      ({ paused := false, ended := false, muted := false, readyState := 4,
         volume := 1 } : MediaElem)].any isElemPlaying = true ∧
    CEvent.AUDIO_PAUSED false 1 ∉
      (pauseListener pausedOnlyElem
        [pausedOnlyElem,
          { paused := false, ended := false, muted := false, readyState := 4,
            volume := 1 }] true).1 :=
  ⟨by decide,
    (pause_event_emissions pausedOnlyElem
      [pausedOnlyElem,
        { paused := false, ended := false, muted := false, readyState := 4,
          volume := 1 }] true).2 (by decide) false 1⟩

/-- The UI_MUTE_SET message as a JS object: the content script reads
`message.is_muted` and `message.initialVolume`; the popup's setMute sender
writes a property named `isMuted` instead.  `none` = property absent. -/
structure UiMuteMsg where
  is_muted : Option Bool := none
  isMuted : Option Bool := none
  initialVolume : Option ℚ := none
  deriving Repr, DecidableEq

/-- The UI_MUTE_SET branch of the content.ts onMessage listener applied to
one tracked element.  `message.is_muted === false && element.volume === 0`
assigns `element.volume = message.initialVolume` (assigning an absent /
undefined initialVolume to the volume IDL double attribute throws, modelled
as `none`); otherwise `element.muted = message.is_muted`, where assigning
undefined coerces to false. -/
def applyMuteSet (message : UiMuteMsg) (element : MediaElem) : Option MediaElem :=
  if message.is_muted == some false && decide (element.volume = 0) then
    match message.initialVolume with
    | some v => some { element with volume := v }
    | none => none
  else
    some { element with muted := message.is_muted.getD false }

/-- The setMute sender in the popup UI (wxt.config.ts App.vue): sends
UI_MUTE_SET carrying `isMuted: muted` and `initialVolume: startVolume`
(the slider volume captured when the gesture started); it sets no `is_muted`
property. -/
def setMuteMsg (muted : Bool) (startVolume : Option ℚ) : UiMuteMsg :=
  { is_muted := none, isMuted := some muted, initialVolume := startVolume }

/-- A tracked element whose volume is exactly zero. -/
def zeroVolElem : MediaElem :=
  { paused := false, ended := false, muted := true, readyState := 4, volume := 0 }

/-- CLAIM C7, code bug. An unmute gesture (setMute with muted = false,
captured start volume 7/10) delivered to an element at volume zero leaves
the volume at zero: the sender writes the property `isMuted` while the
handler tests `message.is_muted`, which is absent, so the restore branch is
unreachable and the handler instead assigns the undefined mute flag
(coerced to false).  Had the message carried the property name the handler
reads, the very same handler would restore the captured volume. -/
theorem muteSet_field_mismatch :
    applyMuteSet (setMuteMsg false (some (7 / 10))) zeroVolElem =
      some { zeroVolElem with muted := false } ∧
    applyMuteSet
      { is_muted := some false, isMuted := none, initialVolume := some (7 / 10) }
      zeroVolElem =
      some { zeroVolElem with volume := 7 / 10 } := by
  refine ⟨?_, ?_⟩ <;> simp [applyMuteSet, setMuteMsg, zeroVolElem]

end AudioControlExt
